import Mathlib

/-!
Shallow embedding of the message-dispatch core of the im64DMSender
repository (src/DM.py and src/dm_sender.py), together with theorems
settling the frozen claims about its specification.

Modelling conventions:
* Python dict `.get(key, default)` on optional JSON fields is embedded as
  `Option` plus `Option.getD`.
* Python truthiness on strings/lists (`if not x`) is embedded as the
  explicit emptiness tests the code relies on.
* Effectful collaborators (filesystem, Twitter API, random number
  generator, clock) are embedded as oracle fields of an `Env` structure;
  an exception raised by a collaborator and caught by the code is the
  `none` branch of the corresponding oracle.
* The durable rotation-state file `message_index.json` is embedded as
  `Option Store` (`none` = the file does not exist), and every read or
  write of that file emits an explicit `Event` so that I/O-placement
  claims are statable.
* File sizes are exact naturals (bytes); the code's float division by
  1024*1024 before comparing to the configured MB ceiling is embedded as
  the equivalent exact comparison in bytes.
-/

namespace DM

/-- A raw message entry as it appears in JSON: either a plain string
(old format, DM.py line 309) or an object with optional `text` and
`image` fields. -/
inductive RawMsg where
  | str (s : String)
  | obj (text : Option String) (image : Option String)
deriving DecidableEq, Repr

/-- A normalized message candidate: the dict shape
`{"text": ..., "image": ...}` produced by `get_messages_for_recipient`. -/
structure Candidate where
  text : Option String
  image : Option String
deriving DecidableEq, Repr

/-- One entry of the `recipients` array of config.json (DM.py template,
lines 102-126).  Absent JSON keys are `none` / the empty list. -/
structure Recipient where
  user_id : Option String
  username : Option String
  message_category : Option String
  custom_messages : List RawMsg
  enabled : Option Bool
deriving DecidableEq, Repr

/-- The `schedule_settings` section of config.json. -/
structure ScheduleSettings where
  enable_timestamp : Option Bool
  randomize_messages : Option Bool
deriving DecidableEq, Repr

/-- The `media_settings` section of config.json. -/
structure MediaSettings where
  images_directory : Option String
  max_image_size_mb : Option Nat
deriving DecidableEq, Repr

/-- The parts of config.json that `send_scheduled_messages` and its
helpers read.  Each section is optional, mirroring `config.get(...)`. -/
structure Config where
  schedule_settings : Option ScheduleSettings
  media_settings : Option MediaSettings
  message_templates : Option (List (String × List RawMsg))
  recipients : Option (List Recipient)
deriving Repr

/-- The effectful collaborators of one dispatch cycle, as oracles.
`mediaUpload p = none` models `api.media_upload` raising (caught at
DM.py line 214); `sendSignal` gives, per recipient id, what
`client.create_direct_message` does for that recipient this cycle. -/
structure Env where
  fileExists : String → Bool
  fileSizeBytes : String → Nat
  mediaUpload : String → Option Nat
  sendSignal : String → Nat
  randChoice : String → Nat
  now : String

/-- Outcome of `client.create_direct_message`, encoded by the
`sendSignal` oracle: 0 = success with data, 1 = response without data,
2 = `tweepy.errors.Forbidden`, anything else = any other exception
(rate limit, transport error, ...). -/
def sigOk : Nat := 0

/-- Signal value for a response whose `data` field is falsy. -/
def sigNoData : Nat := 1

/-- Signal value for `tweepy.errors.Forbidden`. -/
def sigForbidden : Nat := 2

/-- Signal value for any other exception raised by the send call. -/
def sigError : Nat := 3

/-- The contents of `message_index.json`: a JSON object mapping user id
to next rotation index, in insertion order. -/
abbrev Store : Type := List (String × Nat)

/-- `indices.get(user_id, 0)` (DM.py line 397). -/
def storeGet : Store → String → Nat
  | [], _ => 0
  | (k, v) :: rest, user_id => if k = user_id then v else storeGet rest user_id

/-- `indices[user_id] = index` (DM.py line 415): Python dict update,
replacing in place or appending at the end. -/
def storeSet : Store → String → Nat → Store
  | [], user_id, index => [(user_id, index)]
  | (k, v) :: rest, user_id, index =>
      if k = user_id then (k, index) :: rest
      else (k, v) :: storeSet rest user_id index

/-- Observable events of one dispatch cycle: reads and writes of the
durable rotation-state file, DM send attempts, and throttle sleeps
(seconds). -/
inductive Event where
  | readStore
  | writeStore
  | send (user_id : String) (message : String) (media_id : Option Nat)
  | sleep (seconds : Nat)
deriving DecidableEq, Repr

/-- Whether an event touches the durable rotation-state file. -/
def Event.isStore : Event → Bool
  | .readStore => true
  | .writeStore => true
  | _ => false

/-- `TwitterDMScheduler.get_message_index` (DM.py lines 383-398): if
`message_index.json` exists, load it and return `indices.get(user_id, 0)`;
otherwise return 0 without touching the file. -/
def get_message_index (store : Option Store) (user_id : String) :
    Nat × List Event :=
  match store with
  | some indices => (storeGet indices user_id, [.readStore])
  | none => (0, [])

/-- `TwitterDMScheduler.update_message_index` (DM.py lines 400-418):
start from `{}`, load the file if it exists (a second full read), set
`indices[user_id] = index`, and rewrite the whole file. -/
def update_message_index (store : Option Store) (user_id : String)
    (index : Nat) : Option Store × List Event :=
  match store with
  | some indices => (some (storeSet indices user_id index), [.readStore, .writeStore])
  | none => (some (storeSet [] user_id index), [.writeStore])

/-- The fallback candidate list used when the recipient's category is
absent from `message_templates` (DM.py line 304). -/
def defaultMessages : List RawMsg :=
  [.obj (some "デフォルトメッセージ") none]

/-- Normalization of one raw message (DM.py lines 307-312): a plain
string becomes `{"text": s, "image": None}`; a dict passes through. -/
def normalize : RawMsg → Candidate
  | .str s => ⟨some s, none⟩
  | .obj t i => ⟨t, i⟩

/-- `TwitterDMScheduler.get_messages_for_recipient` (DM.py lines
287-314): a non-empty `custom_messages` list wins; otherwise the
recipient's `message_category` (default `"custom"`) is looked up in
`message_templates`, falling back to `defaultMessages` when the key is
absent; the chosen list is then normalized. -/
def get_messages_for_recipient (message_templates : List (String × List RawMsg))
    (recipient : Recipient) : List Candidate :=
  let messages :=
    if recipient.custom_messages ≠ [] then recipient.custom_messages
    else
      let category := recipient.message_category.getD "custom"
      (message_templates.lookup category).getD defaultMessages
  messages.map normalize

/-- `TwitterDMScheduler.get_image_path` (DM.py lines 261-285): falsy
filename yields nothing; otherwise join with the images directory and
check existence, then try the filename standalone. `os.path.join` is
embedded as concatenation with a separator. -/
def get_image_path (env : Env) (cfg : Config) (image_filename : Option String) :
    Option String :=
  match image_filename with
  | none => none
  | some f =>
      if f = "" then none
      else
        let images_dir :=
          ((cfg.media_settings.getD ⟨none, none⟩).images_directory).getD "images"
        let image_path := images_dir ++ "/" ++ f
        if env.fileExists image_path then some image_path
        else if env.fileExists f then some f
        else none

/-- `TwitterDMScheduler.upload_media` (DM.py lines 187-216): returns the
media id, or `none` when the file is missing, oversized (the configured
MB ceiling, default 5), or the gateway call raises. -/
def upload_media (env : Env) (cfg : Config) (image_path : String) :
    Option Nat :=
  if env.fileExists image_path = false then none
  else
    let max_size :=
      ((cfg.media_settings.getD ⟨none, none⟩).max_image_size_mb).getD 5
    if env.fileSizeBytes image_path > max_size * 1048576 then none
    else env.mediaUpload image_path

/-- `TwitterDMScheduler.send_dm` (DM.py lines 218-259): every failure
mode — falsy `response.data`, `Forbidden`, any other exception — is
caught and returns `false`; only a data-bearing response returns
`true`. -/
def send_dm (env : Env) (recipient_id : String) (_message : String)
    (_media_id : Option Nat) : Bool :=
  env.sendSignal recipient_id = sigOk

/-- Per-recipient outcome of one pass of the dispatch loop. -/
inductive Outcome where
  | skippedDisabled
  | skippedNoId
  | skippedNoMessages
  | sent (message : String) (media_id : Option Nat)
  | sendFailed (message : String) (media_id : Option Nat)
deriving DecidableEq, Repr

/-- An outcome in which a DM send was actually attempted. -/
def Outcome.attempted : Outcome → Bool
  | .sent _ _ => true
  | .sendFailed _ _ => true
  | _ => false

/-- An outcome in which the DM was sent successfully with no media
attached (text-only). -/
def Outcome.isSentTextOnly : Outcome → Bool
  | .sent _ none => true
  | _ => false

/-- The image block of the dispatch loop (DM.py lines 363-368): when the
selected candidate carries a truthy `image`, resolve it to a path and
upload it; any failure leaves the media id absent. -/
def resolve_media (cfg : Config) (env : Env) (message_data : Candidate) :
    Option Nat :=
  match message_data.image with
  | some img =>
      if img = "" then none
      else
        match get_image_path env cfg (some img) with
        | some image_path => upload_media env cfg image_path
        | none => none
  | none => none

/-- The body of the per-recipient loop of
`TwitterDMScheduler.send_scheduled_messages` (DM.py lines 324-379):
skip guards, message resolution, rotation-or-random selection (the
rotation branch reads the index file and immediately writes index+1
back, before the send), optional timestamp suffix, optional media
upload, the send itself, and the 2-second throttle sleep. -/
def processRecipient (cfg : Config) (env : Env) (store : Option Store)
    (recipient : Recipient) : Outcome × Option Store × List Event :=
  if recipient.enabled.getD true = false then (.skippedDisabled, store, [])
  else
    match recipient.user_id with
    | none => (.skippedNoId, store, [])
    | some user_id =>
        if user_id = "" then (.skippedNoId, store, [])
        else
          let messages :=
            get_messages_for_recipient (cfg.message_templates.getD []) recipient
          if messages = [] then (.skippedNoMessages, store, [])
          else
            let settings := cfg.schedule_settings.getD ⟨none, none⟩
            let sel :=
              if settings.randomize_messages.getD false then
                (messages.getD (env.randChoice user_id % messages.length) ⟨none, none⟩,
                 store, ([] : List Event))
              else
                let gi := get_message_index store user_id
                let md := messages.getD (gi.1 % messages.length) ⟨none, none⟩
                let up := update_message_index store user_id (gi.1 + 1)
                (md, up.1, gi.2 ++ up.2)
            let message_data := sel.1
            let message_text := message_data.text.getD ""
            let full_message :=
              if settings.enable_timestamp.getD true then
                message_text ++ "\n\n送信時刻: " ++ env.now
              else message_text
            let media_id := resolve_media cfg env message_data
            let success := send_dm env user_id full_message media_id
            let outcome :=
              if success then Outcome.sent full_message media_id
              else Outcome.sendFailed full_message media_id
            (outcome, sel.2.1,
             sel.2.2 ++ [.send user_id full_message media_id, .sleep 2])

/-- The per-recipient loop folded over a recipient list, threading the
rotation-state file and accumulating outcomes and events in order. -/
def sendLoop (cfg : Config) (env : Env) :
    List Recipient → Option Store → List Outcome × Option Store × List Event
  | [], store => ([], store, [])
  | r :: rest, store =>
      let step := processRecipient cfg env store r
      let tail := sendLoop cfg env rest step.2.1
      (step.1 :: tail.1, tail.2.1, step.2.2 ++ tail.2.2)

/-- `TwitterDMScheduler.send_scheduled_messages` (DM.py lines 316-381):
one full dispatch cycle over `config['recipients']` (default `[]`). -/
def send_scheduled_messages (cfg : Config) (env : Env) (store : Option Store) :
    List Outcome × Option Store × List Event :=
  sendLoop cfg env (cfg.recipients.getD []) store

/-- Several consecutive dispatch cycles (one `Env` per scheduler tick),
returning the final rotation-state file and all events. -/
def runCycles (cfg : Config) :
    List Env → Option Store → Option Store × List Event
  | [], store => (store, [])
  | e :: es, store =>
      let cyc := send_scheduled_messages cfg e store
      let rest := runCycles cfg es cyc.2.1
      (rest.1, cyc.2.2 ++ rest.2)

end DM

namespace Sender

/-- One entry of `target_users` in dm_sender.py's config. -/
structure TargetUser where
  user_id : Option String
  username : Option String
deriving DecidableEq, Repr

/-- The `image_settings` section of dm_sender.py's config; the
`send_probability` comparison with `random.random()` is embedded as the
per-user `attachRoll` oracle of `Env`. -/
structure ImageSettings where
  enabled : Option Bool
  folder_path : Option String
deriving DecidableEq, Repr

/-- The parts of dm_sender.py's config that `send_messages_to_all` and
its helpers read. -/
structure Config where
  target_users : List TargetUser
  image_settings : Option ImageSettings
  fallback_messages : Option (List String)
deriving Repr

/-- Effectful collaborators of one `DMSender` cycle, as per-user
oracles. `gen u = some raw` is the text produced by the Gemini call for
user `u`; `gen u = none` is any exception inside `generate_message`'s
`try` block. `sendSignal` encodes what `create_direct_message` does:
0 = success, 1 = `tweepy.TooManyRequests`, 2 = `tweepy.Forbidden`,
anything else = any other exception. -/
structure Env where
  gen : String → Option String
  pickFallback : String → Nat
  attachRoll : String → Bool
  randomImage : String → Option String
  fileSizeBytes : String → Option Nat
  mediaUpload : String → Option Nat
  sendSignal : String → Nat

/-- Signal value for a successful send. -/
def sigOk : Nat := 0

/-- Signal value for `tweepy.TooManyRequests`. -/
def sigRateLimit : Nat := 1

/-- Signal value for `tweepy.Forbidden`. -/
def sigForbidden : Nat := 2

/-- Observable events of one `DMSender` cycle: send attempts and sleeps
(seconds). -/
inductive Ev where
  | send (user_id : String)
  | sleep (seconds : Nat)
deriving DecidableEq, Repr

/-- The hard-coded fallback message used when `fallback_messages` is
absent from the config (dm_sender.py lines 201-203). -/
def defaultFallback : String :=
  "このメッセージは表示されないはずだよ。https://github.com/coffin399/im64DMSender"

/-- Python `str.strip()`: remove leading and trailing whitespace from
the character sequence. -/
def pyStrip (s : String) : String :=
  String.mk
    (((s.data.dropWhile Char.isWhitespace).reverse.dropWhile
        Char.isWhitespace).reverse)

/-- `DMSender.generate_message` (dm_sender.py lines 182-204): on a
successful generation the text is stripped and, past 9500 characters,
truncated to its first 9500 characters plus `"..."`; on any exception a
message is chosen at random from `fallback_messages` (defaulting to the
singleton `defaultFallback`).  `random.choice` on an empty configured
pool raises an uncaught `IndexError`, embedded as `none`. -/
def generate_message (genResult : Option String)
    (fallback_messages : Option (List String)) (pick : Nat) : Option String :=
  match genResult with
  | some raw =>
      let message := pyStrip raw
      if message.length > 9500 then some (message.take 9500 ++ "...")
      else some message
  | none =>
      let fb := fallback_messages.getD [defaultFallback]
      if fb = [] then none
      else some (fb.getD (pick % fb.length) "")

/-- `DMSender.upload_media` (dm_sender.py lines 239-255): `none` when
`os.path.getsize` raises, when the file exceeds the hard-coded 5 MB
ceiling, or when the gateway call raises. -/
def upload_media (env : Env) (image_path : String) : Option Nat :=
  match env.fileSizeBytes image_path with
  | none => none
  | some file_size =>
      if file_size > 5 * 1024 * 1024 then none
      else env.mediaUpload image_path

/-- `DMSender.send_dm_to_user` (dm_sender.py lines 257-294): a
`TooManyRequests` exception sleeps 900 seconds (15 minutes) and returns
`false`; `Forbidden` and every other exception return `false` with no
sleep; success returns `true`. -/
def send_dm_to_user (env : Env) (user_id : String) (_message : String)
    (_media_id : Option Nat) : Bool × List Ev :=
  if env.sendSignal user_id = sigOk then (true, [])
  else if env.sendSignal user_id = sigRateLimit then (false, [.sleep 900])
  else (false, [])

/-- The body of the per-user loop of `DMSender.send_messages_to_all`
(dm_sender.py lines 309-342): a falsy `user_id` skips with `continue`
(before any sleep); otherwise generate the message (an uncaught
generation failure aborts the cycle), optionally pick and upload an
image, send, and sleep 3 seconds.  Returns `none` on the uncaught
exception, otherwise the recorded `(user_id, success)` (or `none` for a
skipped entry) and the event trace. -/
def processUser (cfg : Config) (env : Env) (u : TargetUser) :
    Option (Option (String × Bool) × List Ev) :=
  match u.user_id with
  | none => some (none, [])
  | some user_id =>
      if user_id = "" then some (none, [])
      else
        match generate_message (env.gen user_id) cfg.fallback_messages
            (env.pickFallback user_id) with
        | none => none
        | some message =>
            let image_enabled :=
              ((cfg.image_settings.getD ⟨none, none⟩).enabled).getD false
            let media_id :=
              if image_enabled ∧ env.attachRoll user_id then
                match env.randomImage user_id with
                | some image_path => upload_media env image_path
                | none => none
              else none
            let res := send_dm_to_user env user_id message media_id
            some (some (user_id, res.1), .send user_id :: res.2 ++ [.sleep 3])

/-- The per-user loop folded over a target list, aborting the cycle on
an uncaught generation exception. -/
def senderLoop (cfg : Config) (env : Env) :
    List TargetUser → Option (List (String × Bool) × List Ev)
  | [] => some ([], [])
  | u :: rest =>
      match processUser cfg env u with
      | none => none
      | some step =>
          match senderLoop cfg env rest with
          | none => none
          | some tail =>
              some (step.1.toList ++ tail.1, step.2 ++ tail.2)

/-- `DMSender.send_messages_to_all` (dm_sender.py lines 296-345): one
full cycle over `config['target_users']`. -/
def send_messages_to_all (cfg : Config) (env : Env) :
    Option (List (String × Bool) × List Ev) :=
  senderLoop cfg env cfg.target_users

/-- The non-empty user ids of a target list, in order: exactly the
entries the loop attempts to send to. -/
def validIds (targets : List TargetUser) : List String :=
  targets.filterMap fun u =>
    match u.user_id with
    | none => none
    | some s => if s = "" then none else some s

end Sender

namespace DM

/-- Concrete recipient with two plain-string candidates. -/
def rcpA : Recipient := ⟨some "u1", some "alice", none, [.str "a0", .str "a1"], some true⟩

/-- Concrete recipient with two plain-string candidates. -/
def rcpB : Recipient := ⟨some "u2", some "bob", none, [.str "b0", .str "b1"], some true⟩

/-- Concrete recipient (enabled key absent) with two candidates. -/
def rcpC : Recipient := ⟨some "u3", some "carol", none, [.str "c0", .str "c1"], none⟩

/-- Concrete recipient whose single candidate carries an image
reference. -/
def rcpImg : Recipient := ⟨some "u9", none, none, [.obj (some "hi") (some "pic.png")], none⟩

/-- Rotate policy, timestamps disabled, three enabled recipients with
two candidates each. -/
def cfgThree : Config := ⟨some ⟨some false, some false⟩, none, some [], some [rcpA, rcpB, rcpC]⟩

/-- Rotate policy, timestamps disabled, one recipient. -/
def cfgOne : Config := ⟨some ⟨some false, some false⟩, none, some [], some [rcpA]⟩

/-- Rotate policy, timestamps disabled, two recipients. -/
def cfgTwo : Config := ⟨some ⟨some false, some false⟩, none, some [], some [rcpA, rcpB]⟩

/-- Randomize policy, timestamps disabled, two recipients. -/
def cfgRand : Config := ⟨some ⟨some false, some true⟩, none, some [], some [rcpA, rcpB]⟩

/-- Rotate policy, timestamps disabled, one recipient with an image
candidate. -/
def cfgImg : Config := ⟨some ⟨some false, some false⟩, none, some [], some [rcpImg]⟩

/-- Environment in which every send succeeds; no file exists and every
media upload fails. -/
def envAllOk : Env := ⟨fun _ => false, fun _ => 0, fun _ => none, fun _ => sigOk, fun _ => 0, "T"⟩

/-- Environment in which every send raises a generic exception. -/
def envAllErr : Env := ⟨fun _ => false, fun _ => 0, fun _ => none, fun _ => sigError, fun _ => 0, "T"⟩

/-- Concrete template mapping with one category. -/
def tmplW : List (String × List RawMsg) := [("greeting", [.str "g0"])]

/-- Recipient with both an inline candidate list and a category. -/
def rinlineW : Recipient := ⟨some "u", none, some "greeting", [.str "inline"], none⟩

/-- Recipient with no inline candidates and a present category. -/
def rcatW : Recipient := ⟨some "u", none, some "greeting", [], none⟩

/-- Recipient with no inline candidates and an absent category. -/
def rmissW : Recipient := ⟨some "u", none, some "nope", [], none⟩

/-- Whether the dispatch loop reaches the send call for a recipient:
enabled (or key absent), non-empty user id, non-empty resolved
candidate list.  Depends only on the configuration and the recipient. -/
def attemptClass (cfg : Config) (recipient : Recipient) : Bool :=
  if recipient.enabled.getD true = false then false
  else
    match recipient.user_id with
    | none => false
    | some user_id =>
        if user_id = "" then false
        else
          if get_messages_for_recipient (cfg.message_templates.getD []) recipient = []
          then false else true

end DM

namespace Sender

/-- Concrete two-user target list; `u1` is rate-limited below. -/
def cfgRL : Config := ⟨[⟨some "u1", some "alice"⟩, ⟨some "u2", some "bob"⟩], none, none⟩

/-- Environment in which generation succeeds for everyone, no images
are configured, `u1` hits the rate limit and every other send
succeeds. -/
def envRL : Env :=
  ⟨fun _ => some "hello", fun _ => 0, fun _ => false, fun _ => none,
   fun _ => none, fun _ => none, fun u => if u = "u1" then sigRateLimit else sigOk⟩

/-- A 9504-character string, used as an oversized fallback message. -/
def longMsg : String := String.mk (List.replicate 9504 'x')

end Sender

namespace DM

/-- C8: under Rotate with 3 enabled recipients of 2 candidates each,
timestamps disabled and all sends succeeding, cycle 1 sends
candidate 0 to each recipient and leaves every cursor at 1, cycle 2
sends candidate 1 and leaves the cursors at 2, and cycle 3 wraps back
to candidate 0 because the stored index is reduced modulo the candidate
count (2 mod 2 = 0). -/
theorem rotate_three_recipients_scenario :
    (send_scheduled_messages cfgThree envAllOk none).1
        = [.sent "a0" none, .sent "b0" none, .sent "c0" none]
    ∧ (send_scheduled_messages cfgThree envAllOk none).2.1
        = some [("u1", 1), ("u2", 1), ("u3", 1)]
    ∧ (send_scheduled_messages cfgThree envAllOk
          (some [("u1", 1), ("u2", 1), ("u3", 1)])).1
        = [.sent "a1" none, .sent "b1" none, .sent "c1" none]
    ∧ (send_scheduled_messages cfgThree envAllOk
          (some [("u1", 1), ("u2", 1), ("u3", 1)])).2.1
        = some [("u1", 2), ("u2", 2), ("u3", 2)]
    ∧ (send_scheduled_messages cfgThree envAllOk
          (some [("u1", 2), ("u2", 2), ("u3", 2)])).1
        = [.sent "a0" none, .sent "b0" none, .sent "c0" none] := by
  decide

/-- C1 counterexample: with one Rotate recipient whose send raises, the
cycle still advances the cursor from 0 to 1, and the next cycle
resolves candidate 1 — not the same candidate again — refuting
"the cursor is advanced only after a successful send". -/
theorem rotation_advance_on_failure_cex :
    (send_scheduled_messages cfgOne envAllErr none).1 = [.sendFailed "a0" none]
    ∧ (send_scheduled_messages cfgOne envAllErr none).2.1 = some [("u1", 1)]
    ∧ (send_scheduled_messages cfgOne envAllErr (some [("u1", 1)])).1
        = [.sendFailed "a1" none] := by
  decide

/-- Writing the cursor then reading it back yields the written value. -/
theorem storeGet_storeSet (m : Store) (u : String) (n : Nat) :
    storeGet (storeSet m u n) u = n := by
  induction m with
  | nil => simp [storeSet, storeGet]
  | cons kv rest ih =>
      obtain ⟨k, v⟩ := kv
      by_cases h : k = u
      · simp [storeSet, storeGet, h]
      · simp [storeSet, storeGet, h, ih]

/-- C1 amended: under Rotate, for every dispatched recipient the cursor
is advanced to index+1 unconditionally at selection time, before and
regardless of the send's result; so after a failed send the next cycle
resolves the next candidate index, not the same one. -/
theorem rotation_advances_unconditionally
    (cfg : Config) (env : Env) (store : Option Store) (r : Recipient) (u : String)
    (hr : (cfg.schedule_settings.getD ⟨none, none⟩).randomize_messages.getD false = false)
    (hen : r.enabled.getD true = true)
    (hid : r.user_id = some u) (hne : ¬ u = "")
    (hmsg : ¬ get_messages_for_recipient (cfg.message_templates.getD []) r = []) :
    (get_message_index (processRecipient cfg env store r).2.1 u).1
      = (get_message_index store u).1 + 1
    ∧ (processRecipient cfg env store r).1.attempted = true := by
  have hstore : (processRecipient cfg env store r).2.1
      = (update_message_index store u ((get_message_index store u).1 + 1)).1 := by
    simp [processRecipient, hr, hen, hid, hne, hmsg]
  have hatt : (processRecipient cfg env store r).1.attempted = true := by
    simp [processRecipient, hr, hen, hid, hne, hmsg]
    split <;> split <;> rfl
  refine ⟨?_, hatt⟩
  rw [hstore]
  cases store with
  | none => simp [get_message_index, update_message_index, storeGet_storeSet]
  | some m => simp [get_message_index, update_message_index, storeGet_storeSet]

/-- Witness for the amended C1 theorem at a concrete failing send. -/
theorem rotation_advances_witness :
    (get_message_index (processRecipient cfgOne envAllErr none rcpA).2.1 "u1").1
      = (get_message_index (none : Option Store) "u1").1 + 1
    ∧ (processRecipient cfgOne envAllErr none rcpA).1.attempted = true :=
  rotation_advances_unconditionally cfgOne envAllErr none rcpA "u1"
    (by decide) (by decide) (by decide) (by decide) (by decide)

/-- C2 counterexample: with two Rotate recipients and an existing index
file, the cycle's event trace performs two reads and one write of the
durable store per recipient, interleaved with the sends — not one batch
read before the cycle and one batch write after it. -/
theorem store_per_recipient_io_cex :
    (send_scheduled_messages cfgTwo envAllOk (some [])).2.2
        = [.readStore, .readStore, .writeStore, .send "u1" "a0" none, .sleep 2,
           .readStore, .readStore, .writeStore, .send "u2" "b0" none, .sleep 2]
    ∧ (send_scheduled_messages cfgTwo envAllOk (some [])).2.2.filter Event.isStore
        ≠ [.readStore, .writeStore] := by
  decide

/-- C2 amended: the durable rotation store is not batch-read/written
around the cycle; under Rotate each dispatched recipient performs, in
the middle of the loop, one full read of the store file while looking
up its index and a second full read followed by a full rewrite while
storing index+1 (when the file exists). -/
theorem store_io_per_rotate_recipient (cfg : Config) (env : Env) (m : Store)
    (r : Recipient) (u : String)
    (hr : (cfg.schedule_settings.getD ⟨none, none⟩).randomize_messages.getD false
        = false)
    (hen : r.enabled.getD true = true)
    (hid : r.user_id = some u) (hne : ¬ u = "")
    (hmsg : ¬ get_messages_for_recipient (cfg.message_templates.getD []) r = []) :
    (processRecipient cfg env (some m) r).2.2.filter Event.isStore
      = [.readStore, .readStore, .writeStore] := by
  simp [processRecipient, hr, hen, hid, hne, hmsg, get_message_index,
    update_message_index, Event.isStore]

/-- Witness for the amended C2 theorem at a concrete recipient. -/
theorem store_io_witness :
    (processRecipient cfgTwo envAllOk (some []) rcpA).2.2.filter Event.isStore
      = [.readStore, .readStore, .writeStore] :=
  store_io_per_rotate_recipient cfgTwo envAllOk [] rcpA "u1"
    (by decide) (by decide) (by decide) (by decide) (by decide)

/-- The per-recipient send attempt happens exactly when the recipient is
not disabled, has a non-empty user id, and resolves a non-empty
candidate list. -/
theorem processRecipient_attempted_eq (cfg : Config) (env : Env)
    (store : Option Store) (r : Recipient) :
    (processRecipient cfg env store r).1.attempted = attemptClass cfg r := by
  by_cases h1 : r.enabled.getD true = false
  · simp [processRecipient, attemptClass, h1, Outcome.attempted]
  · cases hid : r.user_id with
    | none => simp [processRecipient, attemptClass, h1, hid, Outcome.attempted]
    | some u =>
        by_cases h2 : u = ""
        · simp [processRecipient, attemptClass, h1, hid, h2, Outcome.attempted]
        · by_cases h3 :
            get_messages_for_recipient (cfg.message_templates.getD []) r = []
          · simp [processRecipient, attemptClass, h1, hid, h2, h3, Outcome.attempted]
          · simp [processRecipient, attemptClass, h1, hid, h2, h3]
            repeat' split
            all_goals rfl

/-- The dispatch loop yields exactly one outcome per recipient. -/
theorem sendLoop_length (cfg : Config) (env : Env) (rs : List Recipient)
    (store : Option Store) :
    (sendLoop cfg env rs store).1.length = rs.length := by
  induction rs generalizing store with
  | nil => rfl
  | cons r rest ih => simp [sendLoop, ih]

/-- Which recipients get a send attempt depends only on the
configuration, not on the environment or the rotation state. -/
theorem sendLoop_attempted_map (cfg : Config) (env : Env) (rs : List Recipient)
    (store : Option Store) :
    (sendLoop cfg env rs store).1.map Outcome.attempted
      = rs.map (attemptClass cfg) := by
  induction rs generalizing store with
  | nil => rfl
  | cons r rest ih => simp [sendLoop, ih, processRecipient_attempted_eq]

/-- C3: every recipient in the list receives exactly one outcome, and
which recipients are attempted is independent of the environment — in
particular of any upload failure, forbidden error, rate limit or
transport error hitting an earlier recipient — and of the rotation
state; a per-recipient failure never aborts the loop. -/
theorem per_recipient_failure_isolated (cfg : Config) (e1 e2 : Env)
    (s1 s2 : Option Store) :
    (send_scheduled_messages cfg e1 s1).1.length = (cfg.recipients.getD []).length
    ∧ (send_scheduled_messages cfg e1 s1).1.map Outcome.attempted
        = (cfg.recipients.getD []).map (attemptClass cfg)
    ∧ (send_scheduled_messages cfg e1 s1).1.map Outcome.attempted
        = (send_scheduled_messages cfg e2 s2).1.map Outcome.attempted := by
  refine ⟨sendLoop_length cfg e1 _ s1, sendLoop_attempted_map cfg e1 _ s1, ?_⟩
  rw [send_scheduled_messages, send_scheduled_messages,
    sendLoop_attempted_map, sendLoop_attempted_map]

/-- Under Randomize one recipient step neither changes the store nor
emits any store I/O event. -/
theorem processRecipient_randomize_frame (cfg : Config) (env : Env)
    (store : Option Store) (r : Recipient)
    (hr : (cfg.schedule_settings.getD ⟨none, none⟩).randomize_messages.getD false
        = true) :
    (processRecipient cfg env store r).2.1 = store
    ∧ (processRecipient cfg env store r).2.2.filter Event.isStore = [] := by
  by_cases h1 : r.enabled.getD true = false
  · simp [processRecipient, h1]
  · cases hid : r.user_id with
    | none => simp [processRecipient, h1, hid]
    | some u =>
        by_cases h2 : u = ""
        · simp [processRecipient, h1, hid, h2]
        · by_cases h3 :
            get_messages_for_recipient (cfg.message_templates.getD []) r = []
          · simp [processRecipient, h1, hid, h2, h3]
          · simp [processRecipient, h1, hid, h2, h3, hr, Event.isStore]

/-- Under Randomize one whole cycle neither changes the store nor emits
any store I/O event. -/
theorem cycle_randomize_frame (cfg : Config) (env : Env) (store : Option Store)
    (hr : (cfg.schedule_settings.getD ⟨none, none⟩).randomize_messages.getD false
        = true) :
    (send_scheduled_messages cfg env store).2.1 = store
    ∧ (send_scheduled_messages cfg env store).2.2.filter Event.isStore = [] := by
  rw [send_scheduled_messages]
  induction (cfg.recipients.getD []) generalizing store with
  | nil => exact ⟨rfl, rfl⟩
  | cons r rest ih =>
      have h := processRecipient_randomize_frame cfg env store r hr
      have h2 := ih ((processRecipient cfg env store r).2.1)
      constructor
      · show (sendLoop cfg env rest (processRecipient cfg env store r).2.1).2.1 = store
        rw [h.1] at h2 ⊢
        exact h2.1
      · show ((processRecipient cfg env store r).2.2
            ++ (sendLoop cfg env rest (processRecipient cfg env store r).2.1).2.2).filter
              Event.isStore = []
        rw [List.filter_append, h.2, h.1] at *
        rw [h.1] at h2
        simp [h2.2]

/-- C6: under the Randomize policy the rotation-state store is left
exactly as it was after any number of cycles, and no read or write of
the store ever appears in the event trace — the random selection path
never touches the cursor. -/
theorem randomize_never_touches_cursor (cfg : Config) (envs : List Env)
    (store : Option Store)
    (hr : (cfg.schedule_settings.getD ⟨none, none⟩).randomize_messages.getD false
        = true) :
    (runCycles cfg envs store).1 = store
    ∧ (runCycles cfg envs store).2.filter Event.isStore = [] := by
  induction envs generalizing store with
  | nil => exact ⟨rfl, rfl⟩
  | cons e es ih =>
      have h := cycle_randomize_frame cfg e store hr
      constructor
      · show (runCycles cfg es (send_scheduled_messages cfg e store).2.1).1 = store
        rw [h.1]
        exact (ih store).1
      · show ((send_scheduled_messages cfg e store).2.2
            ++ (runCycles cfg es (send_scheduled_messages cfg e store).2.1).2).filter
              Event.isStore = []
        rw [List.filter_append, h.2, h.1]
        simp [(ih store).2]

/-- Witness for C6 at a concrete Randomize configuration, two cycles. -/
theorem randomize_cursor_witness :
    (runCycles cfgRand [envAllOk, envAllErr] (some [("u1", 5)])).1 = some [("u1", 5)]
    ∧ (runCycles cfgRand [envAllOk, envAllErr] (some [("u1", 5)])).2.filter
        Event.isStore = [] :=
  randomize_never_touches_cursor cfgRand [envAllOk, envAllErr] (some [("u1", 5)])
    (by decide)

end DM

namespace DM

/-- A missing file, an oversized file, or a gateway exception each make
`upload_media` return `none` rather than raising. -/
theorem upload_media_none_of_failure (env : Env) (cfg : Config) (p : String)
    (h : env.fileExists p = false
      ∨ env.fileSizeBytes p
          > (((cfg.media_settings.getD ⟨none, none⟩).max_image_size_mb).getD 5)
              * 1048576
      ∨ env.mediaUpload p = none) :
    upload_media env cfg p = none := by
  by_cases h1 : env.fileExists p = false
  · simp [upload_media, h1]
  · by_cases h2 : env.fileSizeBytes p
        > (((cfg.media_settings.getD ⟨none, none⟩).max_image_size_mb).getD 5)
            * 1048576
    · simp [upload_media, h1, h2]
    · rcases h with h | h | h
      · exact absurd h h1
      · exact absurd h h2
      · simp [upload_media, h1, h2, h]

/-- When every gateway upload fails, the media block resolves to no
media id for any candidate. -/
theorem resolve_media_none (cfg : Config) (env : Env)
    (hup : ∀ q, env.mediaUpload q = none) (c : Candidate) :
    resolve_media cfg env c = none := by
  unfold resolve_media
  cases c.image with
  | none => rfl
  | some img =>
      by_cases h : img = ""
      · simp [h]
      · simp only [h, if_false, ite_false]
        cases hgp : get_image_path env cfg (some img) with
        | none => simp
        | some p =>
            simp only []
            exact upload_media_none_of_failure env cfg p (Or.inr (Or.inr (hup p)))

/-- C4: a failed media upload (missing file, size over the configured
ceiling, or gateway error) makes `upload_media` return `none` rather
than raising, and a recipient whose uploads all fail still has its DM
sent as text-only (outcome `sent` with no media) — the failed upload
never aborts that recipient's dispatch. -/
theorem upload_failure_degrades_to_text_only :
    (∀ (env : Env) (cfg : Config) (p : String),
        (env.fileExists p = false
          ∨ env.fileSizeBytes p
              > (((cfg.media_settings.getD ⟨none, none⟩).max_image_size_mb).getD 5)
                  * 1048576
          ∨ env.mediaUpload p = none) →
        upload_media env cfg p = none)
    ∧ (∀ (cfg : Config) (env : Env) (store : Option Store) (r : Recipient)
          (u : String),
        (∀ q, env.mediaUpload q = none) →
        r.enabled.getD true = true →
        r.user_id = some u → ¬ u = "" →
        ¬ get_messages_for_recipient (cfg.message_templates.getD []) r = [] →
        env.sendSignal u = sigOk →
        (processRecipient cfg env store r).1.isSentTextOnly = true) := by
  constructor
  · exact upload_media_none_of_failure
  · intro cfg env store r u hup hen hid hne hmsg hsig
    have hm : ∀ c, resolve_media cfg env c = none := resolve_media_none cfg env hup
    simp [processRecipient, hen, hid, hne, hmsg, hm, send_dm, hsig,
      Outcome.isSentTextOnly]

/-- Witness for C4 at a concrete recipient whose candidate carries an
image reference, with every upload failing and the send succeeding. -/
theorem upload_failure_witness :
    upload_media envAllOk cfgImg "images/pic.png" = none
    ∧ (processRecipient cfgImg envAllOk none rcpImg).1.isSentTextOnly = true :=
  ⟨upload_failure_degrades_to_text_only.1 envAllOk cfgImg "images/pic.png"
      (Or.inl rfl),
   upload_failure_degrades_to_text_only.2 cfgImg envAllOk none rcpImg "u9"
      (fun _ => rfl) (by decide) (by decide) (by decide) (by decide) (by decide)⟩

/-- C7: message resolution uses the per-recipient inline candidate list
when non-empty; otherwise it looks the recipient's category up in the
global template mapping, and when the key is absent it falls back to
the fixed default list. -/
theorem message_source_priority (T : List (String × List RawMsg)) (r : Recipient) :
    (¬ r.custom_messages = [] →
        get_messages_for_recipient T r = r.custom_messages.map normalize)
    ∧ (r.custom_messages = [] →
        ∀ l, T.lookup (r.message_category.getD "custom") = some l →
          get_messages_for_recipient T r = l.map normalize)
    ∧ (r.custom_messages = [] →
        T.lookup (r.message_category.getD "custom") = none →
          get_messages_for_recipient T r = defaultMessages.map normalize) := by
  refine ⟨?_, ?_, ?_⟩
  · intro h
    simp [get_messages_for_recipient, h]
  · intro h l hl
    simp [get_messages_for_recipient, h, hl]
  · intro h hl
    simp [get_messages_for_recipient, h, hl]

/-- Witness for C7: the three resolution cases at concrete inputs. -/
theorem message_source_priority_witness :
    get_messages_for_recipient tmplW rinlineW = [⟨some "inline", none⟩]
    ∧ get_messages_for_recipient tmplW rcatW = [⟨some "g0", none⟩]
    ∧ get_messages_for_recipient tmplW rmissW
        = [⟨some "デフォルトメッセージ", none⟩] :=
  ⟨(message_source_priority tmplW rinlineW).1 (by decide),
   (message_source_priority tmplW rcatW).2.1 (by decide) [.str "g0"] (by decide),
   (message_source_priority tmplW rmissW).2.2 (by decide) (by decide)⟩

/-- A recipient that is not explicitly disabled never yields the
`skippedDisabled` outcome. -/
theorem processRecipient_not_disabled (cfg : Config) (env : Env)
    (store : Option Store) (r : Recipient)
    (hen : r.enabled.getD true = true) :
    ¬ (processRecipient cfg env store r).1 = Outcome.skippedDisabled := by
  have h1 : ¬ r.enabled.getD true = false := by simp [hen]
  cases hid : r.user_id with
  | none => simp [processRecipient, h1, hid]
  | some u =>
      by_cases h2 : u = ""
      · simp [processRecipient, h1, hid, h2]
      · by_cases h3 :
          get_messages_for_recipient (cfg.message_templates.getD []) r = []
        · simp [processRecipient, h1, hid, h2, h3]
        · simp [processRecipient, h1, hid, h2, h3]
          repeat' split
          all_goals simp

/-- C9: a recipient record with no `enabled` key is processed exactly
like one with `enabled = true`, and the `skippedDisabled` outcome
occurs precisely when `enabled` is explicitly `false`. -/
theorem absent_enabled_treated_enabled (cfg : Config) (env : Env)
    (store : Option Store) (uid uname cat : Option String) (cm : List RawMsg) :
    processRecipient cfg env store ⟨uid, uname, cat, cm, none⟩
      = processRecipient cfg env store ⟨uid, uname, cat, cm, some true⟩
    ∧ ∀ en : Option Bool,
        ((processRecipient cfg env store ⟨uid, uname, cat, cm, en⟩).1
            = Outcome.skippedDisabled
          ↔ en = some false) := by
  constructor
  · rfl
  · intro en
    constructor
    · intro h
      match en with
      | none => exact absurd h (processRecipient_not_disabled cfg env store _ rfl)
      | some true =>
          exact absurd h (processRecipient_not_disabled cfg env store _ rfl)
      | some false => rfl
    · rintro rfl
      simp [processRecipient]

/-- Witness for C9 at a concrete recipient. -/
theorem absent_enabled_witness :
    processRecipient cfgOne envAllOk none ⟨some "u1", none, none, [.str "a"], none⟩
      = processRecipient cfgOne envAllOk none
          ⟨some "u1", none, none, [.str "a"], some true⟩
    ∧ (processRecipient cfgOne envAllOk none
          ⟨some "u1", none, none, [.str "a"], some false⟩).1
        = Outcome.skippedDisabled :=
  ⟨(absent_enabled_treated_enabled cfgOne envAllOk none
      (some "u1") none none [.str "a"]).1,
   ((absent_enabled_treated_enabled cfgOne envAllOk none
      (some "u1") none none [.str "a"]).2 (some false)).mpr rfl⟩

end DM

namespace Sender

/-- The boolean returned by `send_dm_to_user` is exactly whether the
send signal was success. -/
theorem send_dm_to_user_fst (env : Env) (u m : String) (mid : Option Nat) :
    (send_dm_to_user env u m mid).1 = decide (env.sendSignal u = sigOk) := by
  unfold send_dm_to_user
  by_cases h : env.sendSignal u = sigOk
  · rw [if_pos h]
    simp [h]
  · rw [if_neg h]
    by_cases h2 : env.sendSignal u = sigRateLimit
    · rw [if_pos h2]
      simp [h]
    · rw [if_neg h2]
      simp [h]

/-- With a non-empty effective fallback pool, `generate_message` never
escapes with an uncaught exception. -/
theorem generate_message_total (env : Env) (cfg : Config) (u : String)
    (hfb : ¬ cfg.fallback_messages.getD [defaultFallback] = []) :
    ∃ m, generate_message (env.gen u) cfg.fallback_messages (env.pickFallback u)
      = some m := by
  cases hg : env.gen u with
  | some raw =>
      unfold generate_message
      by_cases hl : (pyStrip raw).length > 9500 <;> simp [hl]
  | none =>
      unfold generate_message
      simp [hfb]

/-- The per-user loop records exactly one `(user id, success)` pair per
non-empty user id of the target list, in order. -/
theorem senderLoop_results (cfg : Config) (env : Env) (targets : List TargetUser)
    (hfb : ¬ cfg.fallback_messages.getD [defaultFallback] = []) :
    Option.map Prod.fst (senderLoop cfg env targets)
      = some ((validIds targets).map
          fun s => (s, decide (env.sendSignal s = sigOk))) := by
  induction targets with
  | nil => rfl
  | cons u rest ih =>
      cases hrest : senderLoop cfg env rest with
      | none => rw [hrest] at ih; exact absurd ih (by simp)
      | some tail =>
          rw [hrest] at ih
          cases hid : u.user_id with
          | none =>
              simp [senderLoop, processUser, hid, hrest, validIds]
              simpa [validIds] using ih
          | some s =>
              by_cases hs : s = ""
              · simp [senderLoop, processUser, hid, hs, hrest, validIds]
                simpa [validIds] using ih
              · obtain ⟨m, hm⟩ := generate_message_total env cfg s hfb
                simp [senderLoop, processUser, hid, hs, hm, hrest, validIds,
                  send_dm_to_user_fst]
                simpa [validIds] using ih

/-- C5: a rate-limit signal while sending to one recipient makes the
cycle sleep the fixed 900-second (15-minute) cooldown and records that
recipient's outcome as failed; every valid target entry is attempted
exactly once per cycle (no within-cycle retry) and the remaining
recipients are still attempted. -/
theorem rate_limit_cooldown_and_continue :
    (∀ (env : Env) (u m : String) (mid : Option Nat),
        env.sendSignal u = sigRateLimit →
        send_dm_to_user env u m mid = (false, [.sleep 900]))
    ∧ (∀ (cfg : Config) (env : Env),
        ¬ cfg.fallback_messages.getD [defaultFallback] = [] →
        Option.map Prod.fst (send_messages_to_all cfg env)
          = some ((validIds cfg.target_users).map
              fun s => (s, decide (env.sendSignal s = sigOk)))) := by
  constructor
  · intro env u m mid h
    simp [send_dm_to_user, h, sigOk, sigRateLimit]
  · intro cfg env hfb
    exact senderLoop_results cfg env cfg.target_users hfb

/-- Witness for C5: a concrete two-user cycle where the first user is
rate-limited and the second still succeeds. -/
theorem rate_limit_witness :
    send_dm_to_user envRL "u1" "hello" none = (false, [Ev.sleep 900])
    ∧ Option.map Prod.fst (send_messages_to_all cfgRL envRL)
        = some [("u1", false), ("u2", true)] := by
  constructor
  · exact rate_limit_cooldown_and_continue.1 envRL "u1" "hello" none (by decide)
  · exact rate_limit_cooldown_and_continue.2 cfgRL envRL (by decide)

/-- C10 counterexample: on a generation error with a configured
fallback pool containing a 9504-character message, `generate_message`
returns that message uncut — longer than the claimed 9503 ceiling. -/
theorem generated_length_cap_cex :
    generate_message none (some [longMsg]) 0 = some longMsg
    ∧ 9503 < longMsg.length := by
  constructor
  · rfl
  · show 9503 < (String.mk (List.replicate 9504 'x')).length
    rw [String.length_mk, List.length_replicate]
    omega

/-- C10 amended: only the successfully generated branch is capped — a
generated text is stripped and truncated to its first 9500 characters
plus three dots, so its result never exceeds 9503 characters — while on
a generation error the message is drawn from the fallback pool with no
length cap. -/
theorem generate_message_amended :
    (∀ (raw : String) (fb : Option (List String)) (pick : Nat) (m : String),
        generate_message (some raw) fb pick = some m →
        m.length ≤ 9503
        ∧ ((pyStrip raw).length > 9500 → m = (pyStrip raw).take 9500 ++ "..."))
    ∧ (∀ (fb : Option (List String)) (pick : Nat),
        ¬ fb.getD [defaultFallback] = [] →
        ∃ m, generate_message none fb pick = some m
          ∧ m ∈ fb.getD [defaultFallback]) := by
  constructor
  · intro raw fb pick m hm
    simp only [generate_message] at hm
    by_cases hl : (pyStrip raw).length > 9500
    · rw [if_pos hl] at hm
      have hm' : (pyStrip raw).take 9500 ++ "..." = m := Option.some.inj hm
      constructor
      · rw [← hm', String.length_append]
        have h1 : ((pyStrip raw).take 9500).length ≤ 9500 := by
          rw [String.take_eq, String.length_mk]
          exact List.length_take_le 9500 (pyStrip raw).data
        have h2 : ("..." : String).length = 3 := by decide
        omega
      · intro _
        exact hm'.symm
    · rw [if_neg hl] at hm
      have hm' : pyStrip raw = m := Option.some.inj hm
      constructor
      · rw [← hm']
        omega
      · intro hcon
        exact absurd hcon hl
  · intro fb pick hfb
    refine ⟨(fb.getD [defaultFallback]).getD
        (pick % (fb.getD [defaultFallback]).length) "", ?_, ?_⟩
    · unfold generate_message
      rw [if_neg hfb]
    · have hlen : 0 < (fb.getD [defaultFallback]).length :=
        List.length_pos.mpr hfb
      have hlt : pick % (fb.getD [defaultFallback]).length
          < (fb.getD [defaultFallback]).length := Nat.mod_lt _ hlen
      rw [List.getD_eq_getElem _ _ hlt]
      exact List.getElem_mem hlt

/-- Witness for the amended C10 theorem at concrete inputs for both
branches. -/
theorem generate_message_amended_witness :
    ("hi" : String).length ≤ 9503
    ∧ ∃ m, generate_message none (some ["fb"]) 0 = some m ∧ m ∈ ["fb"] := by
  constructor
  · exact (generate_message_amended.1 "hi" none 0 "hi" (by decide)).1
  · exact generate_message_amended.2 (some ["fb"]) 0 (by decide)

end Sender
